import Mathlib

/-!
Verification of the document structural annotation pipeline
(`docs_annotation`): a shallow embedding of the pipeline framework
(`src/core/pipeline.py`, `src/core/base.py`), the annotation schema
(`src/core/schema.py`), and the four processing stages
(`src/processors/doc_parser.py`, `element_detector.py`,
`feature_extractor.py`, `layout_classifier.py`), together with theorems
settling the specification's claims about them.

Conventions of the embedding:
* Python ints are `Nat`/`Int`; Python float division is `ℚ` division.
* A Python `dict` used as an open metadata bag is a structure whose
  fields are `Option`-typed (absent key = `none`).
* External collaborators (pdfplumber page objects, the OCR model, the
  LLM classifier) are modelled at their interface boundary: their
  outputs are input data of the embedding, and a fallible call is an
  `Option` (with `none` for a raised exception).
-/

namespace DocsAnnotation

/-! ## Schema (`src/core/schema.py`) -/

/-- `FileType` enum. -/
inductive FileType where
  | pdf | doc | excel | ppt | html | txt | md
deriving DecidableEq, Repr

/-- `LayoutType` enum. -/
inductive LayoutType where
  | single | double | mixed
deriving DecidableEq, Repr

/-- `LayoutType.value` (the `str` payload of the enum member). -/
def LayoutType.value : LayoutType → String
  | .single => "single"
  | .double => "double"
  | .mixed => "mixed"

/-- `EXT_TO_FILE_TYPE` mapping from `schema.py`. -/
def extToFileType : List (String × FileType) :=
  [(".pdf", .pdf), (".doc", .doc), (".docx", .doc),
   (".xls", .excel), (".xlsx", .excel),
   (".ppt", .ppt), (".pptx", .ppt),
   (".html", .html), (".htm", .html),
   (".txt", .txt), (".md", .md)]

/-- `TableProfile` dataclass. -/
structure TableProfile where
  long_table : Bool := false
  cross_page_table : Bool := false
  table_dominant : Option Bool := none
deriving DecidableEq, Repr

/-- `ChartProfile` dataclass. -/
structure ChartProfile where
  cross_page_chart : Bool := false
deriving DecidableEq, Repr

/-- `DocProfile` dataclass (all fields, with the dataclass defaults). -/
structure DocProfile where
  layout : LayoutType := .single
  has_image : Bool := false
  has_table : Bool := false
  has_image_table : Bool := false
  has_complex_table : Bool := false
  has_formula : Bool := false
  has_chart : Bool := false
  image_text_mixed : Bool := false
  reading_order_sensitive : Option Bool := none
  table_profile : Option TableProfile := none
  chart_profile : Option ChartProfile := none
deriving DecidableEq, Repr

/-- `DocumentAnnotation` dataclass. -/
structure DocumentAnnotation where
  doc_id : String
  file_type : FileType
  file_path : String := ""
  doc_profile : Option DocProfile := none
deriving DecidableEq, Repr

/-- JSON values, as far as the serialized annotation record needs them. -/
inductive JValue where
  | b (v : Bool)
  | s (v : String)
  | obj (fields : List (String × JValue))

/-- `TableProfile.to_dict`: fixed key order, `None`-valued keys omitted. -/
def TableProfile.toDict (t : TableProfile) : List (String × JValue) :=
  [("long_table", JValue.b t.long_table),
   ("cross_page_table", JValue.b t.cross_page_table)] ++
  (match t.table_dominant with
   | some v => [("table_dominant", JValue.b v)]
   | none => [])

/-- `ChartProfile.to_dict`. -/
def ChartProfile.toDict (c : ChartProfile) : List (String × JValue) :=
  [("cross_page_chart", JValue.b c.cross_page_chart)]

/-- `DocProfile.to_dict`: the eight always-present keys, then the three
optional entries appended only when present. -/
def DocProfile.toDict (p : DocProfile) : List (String × JValue) :=
  [("layout", JValue.s p.layout.value),
   ("has_image", JValue.b p.has_image),
   ("has_table", JValue.b p.has_table),
   ("has_image_table", JValue.b p.has_image_table),
   ("has_complex_table", JValue.b p.has_complex_table),
   ("has_formula", JValue.b p.has_formula),
   ("has_chart", JValue.b p.has_chart),
   ("image_text_mixed", JValue.b p.image_text_mixed)] ++
  (match p.reading_order_sensitive with
   | some v => [("reading_order_sensitive", JValue.b v)]
   | none => []) ++
  (match p.table_profile with
   | some t => [("table_profile", JValue.obj t.toDict)]
   | none => []) ++
  (match p.chart_profile with
   | some c => [("chart_profile", JValue.obj c.toDict)]
   | none => [])

/-! ## Pipeline (`src/core/pipeline.py`, `src/core/base.py`) -/

/-- Outcome of invoking one processor's `process` from the pipeline's
point of view: a success result carrying data, a failure result carrying
error strings, or a raised exception carrying its message. -/
inductive StageOut (α : Type) where
  | ok (data : α)
  | fail (errors : List String)
  | exn (msg : String)

/-- One pipeline step: a processor's class name and its `process`. -/
structure Stage (α : Type) where
  name : String
  run : α → StageOut α

/-- The metadata dict the pipeline attaches to its own result: either
`{"failed_at_step": i, "processor": name}` or `{"steps_executed": n}`. -/
inductive PMeta where
  | failedAt (step : Nat) (processor : String)
  | stepsExecuted (n : Nat)
deriving DecidableEq, Repr

/-- The pipeline's own `ProcessResult` (its `data` is always set). -/
structure ProcResult (α : Type) where
  success : Bool
  data : α
  errors : List String
  metadata : PMeta

/-- The loop body of `Pipeline.execute`, with `i` the enumeration index
of the current head stage and `a` the data threaded so far. -/
def executeFrom {α : Type} (i : Nat) (a : α) : List (Stage α) → ProcResult α
  | [] => { success := true, data := a, errors := [], metadata := .stepsExecuted i }
  | s :: rest =>
    match s.run a with
    | .ok b => executeFrom (i + 1) b rest
    | .fail errs =>
      { success := false, data := a, errors := errs, metadata := .failedAt i s.name }
    | .exn msg =>
      { success := false, data := a,
        errors := ["Exception in " ++ s.name ++ ": " ++ msg],
        metadata := .failedAt i s.name }

/-- `Pipeline.execute`. -/
def Pipeline.execute {α : Type} (steps : List (Stage α)) (a : α) : ProcResult α :=
  executeFrom 0 a steps

/-- `Pipeline.execute` instrumented with the list of stage indices that
actually get invoked, in invocation order. -/
def executeTracedFrom {α : Type} (i : Nat) (a : α) :
    List (Stage α) → ProcResult α × List Nat
  | [] => ({ success := true, data := a, errors := [], metadata := .stepsExecuted i }, [])
  | s :: rest =>
    match s.run a with
    | .ok b =>
      let r := executeTracedFrom (i + 1) b rest
      (r.1, i :: r.2)
    | .fail errs =>
      ({ success := false, data := a, errors := errs, metadata := .failedAt i s.name }, [i])
    | .exn msg =>
      ({ success := false, data := a,
         errors := ["Exception in " ++ s.name ++ ": " ++ msg],
         metadata := .failedAt i s.name }, [i])

/-- Traced variant of `Pipeline.execute`. -/
def Pipeline.executeTraced {α : Type} (steps : List (Stage α)) (a : α) :
    ProcResult α × List Nat :=
  executeTracedFrom 0 a steps

/-- Claim-side notion (from the spec's words): the first stage that
reports failure or raises, together with its index, its class name and
the data that had been produced up to that point. -/
def firstFailure {α : Type} : List (Stage α) → α → Option (Nat × String × α)
  | [], _ => none
  | s :: rest, a =>
    match s.run a with
    | .ok b => (firstFailure rest b).map (fun x => (x.1 + 1, x.2))
    | _ => some (0, s.name, a)

/-- Claim-side notion: the data obtained by threading each stage's output
into the next (stopping at the first non-success). -/
def threadAll {α : Type} : List (Stage α) → α → α
  | [], a => a
  | s :: rest, a =>
    match s.run a with
    | .ok b => threadAll rest b
    | _ => a

/-- Python `s.strip()`, modelled on the character list. -/
def stripChars (s : String) : List Char :=
  ((s.data.dropWhile Char.isWhitespace).reverse.dropWhile Char.isWhitespace).reverse

/-- Truthiness of Python `s.strip()`: some non-whitespace char exists. -/
def strippedNonempty (s : String) : Bool :=
  s.data.any (fun c => !c.isWhitespace)

/-! ## Element inventory (`src/processors/element_detector.py`) -/

/-- Page raster images are opaque tokens in this embedding. -/
abbrev PageImage := Nat

/-- The keys of an `ElementInfo.extra` dict that any code reads:
`rows` (read by the feature extractor, absent key read as `0`) and
`source` (the detection-source tag). -/
structure ExtraInfo where
  rows : Nat := 0
  source : Option String := none
deriving DecidableEq, Repr

/-- `ElementInfo` dataclass. -/
structure ElementInfo where
  bbox : List Int := []
  page : Nat := 0
  confidence : ℚ := 0
  extra : ExtraInfo := {}
deriving DecidableEq, Repr

/-- `ElementList` dataclass. -/
structure ElementList where
  images : List ElementInfo := []
  tables : List ElementInfo := []
  formulas : List ElementInfo := []
  charts : List ElementInfo := []
deriving DecidableEq, Repr

/-- Per-table record pushed onto the parser's `tables_detail` metadata
entry. -/
structure TableDetail where
  page : Nat
  bbox : Option (ℚ × ℚ × ℚ × ℚ) := none
  rows : Nat := 0
  cols : Nat := 0
deriving DecidableEq, Repr

/-- The parser-produced metadata dict, restricted to the keys the
parsers write and the downstream stages read; `none` = key absent. -/
structure Metadata where
  has_image : Option Bool := none
  has_table : Option Bool := none
  has_image_table : Option Bool := none
  has_complex_table : Option Bool := none
  has_formula : Option Bool := none
  has_chart : Option Bool := none
  image_count : Option Nat := none
  table_count : Option Nat := none
  chart_count : Option Nat := none
  rect_count : Option Nat := none
  line_count : Option Nat := none
  curve_count : Option Nat := none
  table_pages : Option (List Nat) := none
  image_pages : Option (List Nat) := none
  tables_detail : Option (List TableDetail) := none
  possible_scanned_table : Option Bool := none
  possible_scanned_table_pages : Option (List Nat) := none
deriving DecidableEq, Repr

/-- `DocContent` dataclass (`src/processors/doc_parser.py`). -/
structure DocContent where
  doc_id : String
  file_type : FileType
  file_path : String
  page_count : Nat := 0
  text : String := ""
  pages : List PageImage := []
  metadata : Metadata := {}
deriving DecidableEq, Repr

/-- A stage's `ProcessResult` (`src/core/base.py`): success flag, the
optional data payload and the error strings (stage-level diagnostic
metadata is not modelled). -/
structure StageResult (β : Type) where
  success : Bool
  data : Option β := none
  errors : List String := []

/-- One raw detection returned by the OCR collaborator's
`detect_elements`, at its interface boundary. -/
structure Detection where
  bbox : List Int := []
  confidence : ℚ := 0
  latex : String := ""
  chartType : String := "unknown"
deriving DecidableEq, Repr

/-- The four collections returned by one `detect_elements` call. -/
structure Detections where
  images : List Detection := []
  tables : List Detection := []
  formulas : List Detection := []
  charts : List Detection := []
deriving DecidableEq, Repr

/-- The OCR collaborator: per page image, either a detection result or
`none` for a raised exception. -/
abbrev OCRModel := PageImage → Option Detections

/-- `ElementDetector` configuration (its constructor defaults). -/
structure ElementDetector where
  ocr_model : Option OCRModel := none
  enabledImage : Bool := true
  enabledTable : Bool := true
  enabledFormula : Bool := true
  enabledChart : Bool := true
  confidence_threshold : ℚ := 1/2

/-- The placeholder element `_process_from_metadata` synthesizes:
all-zero bbox, page 0, confidence 1.0, `extra={"source":"metadata"}`. -/
def metadataElement : ElementInfo :=
  { bbox := [0, 0, 0, 0], page := 0, confidence := 1,
    extra := { rows := 0, source := some "metadata" } }

/-- `ElementDetector._process_from_metadata`: synthesize at most one
placeholder element per category from the metadata flags and counts. -/
def ElementDetector.processFromMetadata (dc : DocContent) : ElementList :=
  let m := dc.metadata
  { images :=
      if m.has_image.getD false then
        (List.range (min (m.image_count.getD 1) 1)).map (fun _ => metadataElement)
      else [],
    tables :=
      if m.has_table.getD false then
        (List.range (min (m.table_count.getD 1) 1)).map (fun _ => metadataElement)
      else [],
    formulas :=
      if m.has_formula.getD false then [metadataElement] else [],
    charts :=
      if m.has_chart.getD false then
        (List.range (min (m.chart_count.getD 1) 1)).map (fun _ => metadataElement)
      else [] }

/-- The per-page body of `_process_with_ocr`: append the detections of
one page, filtered per enabled detectors and confidence threshold. -/
def ElementDetector.addPageDetections (self : ElementDetector) (pageIdx : Nat)
    (d : Detections) (acc : ElementList) : ElementList :=
  { images :=
      acc.images ++
        (if self.enabledImage then
          (d.images.filter (fun x => self.confidence_threshold ≤ x.confidence)).map
            (fun x => { bbox := x.bbox, page := pageIdx, confidence := x.confidence })
         else []),
    tables :=
      acc.tables ++
        (if self.enabledTable then
          (d.tables.filter (fun x => self.confidence_threshold ≤ x.confidence)).map
            (fun x => { bbox := x.bbox, page := pageIdx, confidence := x.confidence })
         else []),
    formulas :=
      acc.formulas ++
        (if self.enabledFormula then
          (d.formulas.filter (fun x => self.confidence_threshold ≤ x.confidence)).map
            (fun x => { bbox := x.bbox, page := pageIdx, confidence := x.confidence })
         else []),
    charts :=
      acc.charts ++
        (if self.enabledChart then
          (d.charts.filter (fun x => self.confidence_threshold ≤ x.confidence)).map
            (fun x => { bbox := x.bbox, page := pageIdx, confidence := x.confidence })
         else []) }

/-- The page loop of `_process_with_ocr`: a single page's raised
exception aborts with a failure result. -/
def ElementDetector.ocrLoop (self : ElementDetector) (ocr : OCRModel)
    (dc : DocContent) (pageIdx : Nat) (acc : ElementList) :
    List PageImage → StageResult (DocContent × ElementList)
  | [] => { success := true, data := some (dc, acc) }
  | img :: rest =>
    match ocr img with
    | some d =>
      ElementDetector.ocrLoop self ocr dc (pageIdx + 1)
        (ElementDetector.addPageDetections self pageIdx d acc) rest
    | none =>
      { success := false,
        errors := ["Error detecting elements on page " ++ toString pageIdx] }

/-- `ElementDetector._process_with_ocr`. -/
def ElementDetector.processWithOcr (self : ElementDetector) (dc : DocContent) :
    StageResult (DocContent × ElementList) :=
  match self.ocr_model with
  | none => { success := true, data := some (dc, {}) }
  | some ocr => ElementDetector.ocrLoop self ocr dc 0 {} dc.pages

/-- `has_metadata_info`: any of the three flag keys is present (not
`None`), regardless of its truth value. -/
def hasMetadataInfo (dc : DocContent) : Bool :=
  dc.metadata.has_image.isSome || dc.metadata.has_table.isSome ||
    dc.metadata.has_chart.isSome

/-- `ElementDetector.process`. -/
def ElementDetector.process (self : ElementDetector) (dc : DocContent) :
    StageResult (DocContent × ElementList) :=
  if hasMetadataInfo dc then
    { success := true, data := some (dc, ElementDetector.processFromMetadata dc) }
  else if dc.file_type = .pdf ∧ dc.pages ≠ [] then
    ElementDetector.processWithOcr self dc
  else
    { success := true, data := some (dc, {}) }

/-! ## Feature extractor (`src/processors/feature_extractor.py`) -/

/-- `FeatureSet` dataclass. -/
structure FeatureSet where
  table_dominant : Option Bool := none
  long_table : Bool := false
  cross_page_table : Bool := false
  cross_page_chart : Bool := false
  reading_order_sensitive : Option Bool := none
deriving DecidableEq, Repr

/-- The values a successful LLM `extract` call yields for the feature
extractor's schema (`None`-valued keys are `none`). -/
structure ExtractOut where
  table_dominant : Option Bool := none
  reading_order_sensitive : Option Bool := none
deriving DecidableEq, Repr

/-- One LLM `extract` call at its boundary: `none` = the call raised. -/
abbrev ExtractCall := Option ExtractOut

/-- One LLM `classify` call at its boundary: `none` = the call raised;
on success, the optional value of the result's `"label"` key. -/
abbrev ClassifyCall := Option (Option String)

/-- `FeatureExtractor` configuration (its constructor defaults). -/
structure FeatureExtractor where
  llm_model : Option ExtractCall := none
  long_table_threshold : Nat := 3
  check_cross_page : Bool := true
  table_dominant_ratio : ℚ := 3/5

/-- Set-style insertion: Python's `set.add` on a list kept in insertion
order. -/
def insertIfAbsent (l : List Nat) (x : Nat) : List Nat :=
  if x ∈ l then l else l ++ [x]

/-- A Python `set` built by inserting each element in iteration order. -/
def setOfList (l : List Nat) : List Nat := l.foldl insertIfAbsent []

/-- Insertion of one value into a sorted list (ascending). -/
def insertSorted (x : Nat) : List Nat → List Nat
  | [] => [x]
  | y :: ys => if x ≤ y then x :: y :: ys else y :: insertSorted x ys

/-- `sorted` on a list of page numbers. -/
def sortNat (l : List Nat) : List Nat := l.foldr insertSorted []

/-- Whether a sorted page list has two adjacent entries
(`sorted_pages[i+1] - sorted_pages[i] == 1`). -/
def hasAdjacentPair : List Nat → Bool
  | x :: y :: rest => if y - x = 1 then true else hasAdjacentPair (y :: rest)
  | _ => false

/-- The inner loop computing the longest run of consecutive pages:
`prev` is the previous entry, `cur` the current run length, `best` the
maximum so far. -/
def maxConsecutiveFrom (prev cur best : Nat) : List Nat → Nat
  | [] => best
  | x :: xs =>
    if x - prev = 1 then maxConsecutiveFrom x (cur + 1) (max best (cur + 1)) xs
    else maxConsecutiveFrom x 1 best xs

/-- `max_consecutive` over a sorted page list (initialised to 1). -/
def maxConsecutive : List Nat → Nat
  | [] => 1
  | x :: xs => maxConsecutiveFrom x 1 1 xs

/-- The set of pages bearing a table element (Python builds a `set`;
the embedding deduplicates the page list). -/
def feTablePages (el : ElementList) : List Nat :=
  setOfList (el.tables.map (fun t => t.page))

/-- `max_table_rows`: loop maximum of each table's `extra["rows"]`. -/
def feMaxTableRows (el : ElementList) : Nat :=
  el.tables.foldl (fun m t => max m t.extra.rows) 0

/-- `total_table_rows`: loop sum of each table's `extra["rows"]`. -/
def feTotalTableRows (el : ElementList) : Nat :=
  el.tables.foldl (fun s t => s + t.extra.rows) 0

/-- `table_page_ratio`. -/
def feTablePageRatio (dc : DocContent) (el : ElementList) : ℚ :=
  if 0 < dc.page_count then
    ((feTablePages el).length : ℚ) / (dc.page_count : ℚ)
  else 0

/-- `estimated_table_pages` (rows-per-page constant 50). -/
def feEstimatedTablePages (el : ElementList) : Nat :=
  if 0 < feTotalTableRows el then max 1 (feTotalTableRows el / 50) else 0

/-- `max_single_table_pages`. -/
def feMaxSingleTablePages (el : ElementList) : Nat :=
  if 0 < feMaxTableRows el then max 1 (feMaxTableRows el / 50) else 0

/-- `estimated_coverage_ratio`. -/
def feCoverageRatio (dc : DocContent) (el : ElementList) : ℚ :=
  if 0 < dc.page_count then
    ((feEstimatedTablePages el : Nat) : ℚ) / (dc.page_count : ℚ)
  else 0

/-- The `is_dominant` elif chain of `_extract_table_features`. -/
def FeatureExtractor.isDominant (self : FeatureExtractor) (dc : DocContent)
    (el : ElementList) : Bool :=
  if self.table_dominant_ratio ≤ feTablePageRatio dc el then true
  else if self.table_dominant_ratio ≤ feCoverageRatio dc el then true
  else if (feTablePages el).length = dc.page_count ∧ 0 < dc.page_count then true
  else if 0 < dc.page_count ∧ dc.page_count ≤ el.tables.length then true
  else false

/-- `FeatureExtractor._extract_table_features`. -/
def FeatureExtractor.extractTableFeatures (self : FeatureExtractor)
    (dc : DocContent) (el : ElementList) (features : FeatureSet) : FeatureSet :=
  if el.tables = [] then features
  else
    let sortedPages := sortNat (feTablePages el)
    let crossMethod1 :=
      decide (1 < (feTablePages el).length) && hasAdjacentPair sortedPages
    let hasCrossPage :=
      self.check_cross_page &&
        (crossMethod1 || decide (50 < feMaxTableRows el))
    let longMethod1 :=
      decide (1 < (feTablePages el).length) &&
        decide (self.long_table_threshold ≤ maxConsecutive sortedPages)
    let longTable :=
      self.check_cross_page &&
        (longMethod1 || decide (self.long_table_threshold ≤ feMaxSingleTablePages el))
    { features with
        cross_page_table := hasCrossPage,
        long_table := longTable,
        table_dominant := some (FeatureExtractor.isDominant self dc el) }

/-- `FeatureExtractor._extract_chart_features`. -/
def FeatureExtractor.extractChartFeatures (self : FeatureExtractor)
    (el : ElementList) (features : FeatureSet) : FeatureSet :=
  if el.charts = [] ∨ self.check_cross_page = false then features
  else
    let chartPages := el.charts.map (fun c => c.page)
    if 1 < chartPages.length then
      if hasAdjacentPair (sortNat (setOfList chartPages)) then
        { features with cross_page_chart := true }
      else features
    else features

/-- `FeatureExtractor._analyze_with_llm`: a raised `extract` call leaves
the features untouched; a successful call fills `table_dominant` only
when the rules left it undetermined and always applies
`reading_order_sensitive` when returned. -/
def FeatureExtractor.analyzeWithLLM (call : ExtractCall)
    (features : FeatureSet) : FeatureSet :=
  match call with
  | none => features
  | some r =>
    let f1 :=
      if features.table_dominant = none ∧ r.table_dominant ≠ none then
        { features with table_dominant := r.table_dominant }
      else features
    if r.reading_order_sensitive ≠ none then
      { f1 with reading_order_sensitive := r.reading_order_sensitive }
    else f1

/-- `FeatureExtractor.process`. -/
def FeatureExtractor.process (self : FeatureExtractor)
    (input : DocContent × ElementList) :
    StageResult (DocContent × ElementList × FeatureSet) :=
  let dc := input.1
  let el := input.2
  let f0 : FeatureSet := {}
  let f1 := if el.tables ≠ [] then self.extractTableFeatures dc el f0 else f0
  let f2 := if el.charts ≠ [] then self.extractChartFeatures el f1 else f1
  let f3 :=
    match self.llm_model with
    | none => f2
    | some call => FeatureExtractor.analyzeWithLLM call f2
  { success := true, data := some (dc, el, f3) }

/-! ## Layout classifier (`src/processors/layout_classifier.py`) -/

/-- `LayoutClassifier` configuration (its constructor defaults). -/
structure LayoutClassifier where
  llm_model : Option ClassifyCall := none
  use_llm : Bool := true

/-- `LayoutType(label)` at the boundary: `none` when the string is not a
member, which in the source raises `ValueError`. -/
def layoutOfLabel : String → Option LayoutType
  | "single" => some .single
  | "double" => some .double
  | "mixed" => some .mixed
  | _ => none

/-- `LayoutClassifier._classify_by_rules`. -/
def LayoutClassifier.classifyByRules (dc : DocContent) (el : ElementList)
    (features : FeatureSet) : LayoutType :=
  let hasDoublePageFeatures :=
    features.long_table || features.cross_page_table || features.cross_page_chart
  let hasSinglePageFeatures :=
    decide (el.images ≠ []) || decide (0 < dc.text.length)
  if hasDoublePageFeatures && hasSinglePageFeatures then .mixed
  else if hasDoublePageFeatures then .double
  else .single

/-- `LayoutClassifier._classify_with_llm`: any exception inside the try
block (including an invalid label fed to `LayoutType(...)`) falls back
to the deterministic rules. -/
def LayoutClassifier.classifyWithLLM (call : ClassifyCall) (dc : DocContent)
    (el : ElementList) (features : FeatureSet) : LayoutType :=
  match call with
  | none => LayoutClassifier.classifyByRules dc el features
  | some maybeLabel =>
    match layoutOfLabel (maybeLabel.getD "single") with
    | some l => l
    | none => LayoutClassifier.classifyByRules dc el features

/-- The `DocProfile` assembled by `LayoutClassifier.process` (fields not
passed to the constructor keep the dataclass defaults). -/
def LayoutClassifier.buildProfile (self : LayoutClassifier) (dc : DocContent)
    (el : ElementList) (features : FeatureSet) : DocProfile :=
  let isPdf := dc.file_type = .pdf
  let layout :=
    if isPdf then
      match self.llm_model, self.use_llm with
      | some call, true => LayoutClassifier.classifyWithLLM call dc el features
      | _, _ => LayoutClassifier.classifyByRules dc el features
    else LayoutType.single
  let hasImage := decide (el.images ≠ [])
  let hasSubstantialText := decide (100 < (stripChars dc.text).length)
  let base : DocProfile :=
    { layout := layout,
      has_image := hasImage,
      has_table := decide (el.tables ≠ []),
      has_formula := decide (el.formulas ≠ []),
      has_chart := decide (el.charts ≠ []),
      image_text_mixed := hasImage && hasSubstantialText }
  if isPdf then
    { base with
        reading_order_sensitive := features.reading_order_sensitive,
        table_profile :=
          if el.tables ≠ [] then
            some { long_table := features.long_table,
                   cross_page_table := features.cross_page_table,
                   table_dominant := features.table_dominant }
          else none,
        chart_profile :=
          if el.charts ≠ [] then
            some { cross_page_chart := features.cross_page_chart }
          else none }
  else base

/-- The `DocumentAnnotation` assembled by `LayoutClassifier.process`. -/
def LayoutClassifier.annotationOf (self : LayoutClassifier) (dc : DocContent)
    (el : ElementList) (features : FeatureSet) : DocumentAnnotation :=
  { doc_id := dc.doc_id,
    file_type := dc.file_type,
    file_path := dc.file_path,
    doc_profile := some (self.buildProfile dc el features) }

/-- `LayoutClassifier.process`. -/
def LayoutClassifier.process (self : LayoutClassifier)
    (input : DocContent × ElementList × FeatureSet) :
    StageResult DocumentAnnotation :=
  { success := true,
    data := some (LayoutClassifier.annotationOf self input.1 input.2.1 input.2.2) }

/-! ## Document parser (`src/processors/doc_parser.py`) -/

/-- An axis-aligned bounding box `(x0, y0, x1, y1)`. -/
structure BBox where
  x0 : ℚ
  y0 : ℚ
  x1 : ℚ
  y1 : ℚ
deriving DecidableEq, Repr

/-- `DocParser._bbox_overlap`: intersection area divided by the first
box's area. -/
def bboxOverlap (b1 b2 : BBox) : ℚ :=
  let x0 := max b1.x0 b2.x0
  let y0 := max b1.y0 b2.y0
  let x1 := min b1.x1 b2.x1
  let y1 := min b1.y1 b2.y1
  if x1 ≤ x0 ∨ y1 ≤ y0 then 0
  else
    let overlapArea := (x1 - x0) * (y1 - y0)
    let b1Area := (b1.x1 - b1.x0) * (b1.y1 - b1.y0)
    if b1Area ≤ 0 then 0
    else overlapArea / b1Area

/-- `DocParser._detect_chart`: the ordered rule chain over the page-level
vector-primitive tallies. -/
def detectChart (total_lines total_rects total_curves total_tables
    page_count : Nat) : Bool :=
  if 5 < total_curves then true
  else
    let estimatedTableLines : Int := (total_tables : Int) * 20
    let estimatedTableRects : Int := (total_tables : Int) * 10
    let _extraLines : Int := (total_lines : Int) - estimatedTableLines
    let extraRects : Int := (total_rects : Int) - estimatedTableRects
    if 0 < page_count ∧ (5 : ℚ) < (extraRects : ℚ) / (page_count : ℚ) then true
    else if total_tables = 0 ∧ 10 < total_rects then true
    else false

/-- `DocParser._detect_complex_table` over the `tables_detail` records. -/
def detectComplexTable (tablesDetail : List TableDetail) : Bool :=
  tablesDetail.any (fun t =>
    decide (10 < t.cols) || decide (100 < t.rows) ||
      (decide (7 ≤ t.cols) && decide (20 < t.rows)))

/-- One image dict of a pdfplumber page, at the library boundary.
Absent keys read through `.get(key, 0)` are the default `0`. -/
structure PdfImage where
  x0 : ℚ := 0
  x1 : ℚ := 0
  top : ℚ := 0
  bottom : ℚ := 0
  y0 : ℚ := 0
  y1 : ℚ := 0
  width : ℚ := 0
  height : ℚ := 0
deriving DecidableEq, Repr

/-- Effective image width: `img.get('width', 0) or (x1 - x0)` (a falsy
`0` falls through to the coordinate difference). -/
def PdfImage.effWidth (i : PdfImage) : ℚ :=
  if i.width = 0 then i.x1 - i.x0 else i.width

/-- Effective image height: `img.get('height', 0) or (y1 - y0)`. -/
def PdfImage.effHeight (i : PdfImage) : ℚ :=
  if i.height = 0 then i.y1 - i.y0 else i.height

/-- One table found by `page.find_tables()`, at the library boundary
(`rows`/`cols` as estimated there from the cell coordinates). -/
structure PdfTable where
  bbox : Option (ℚ × ℚ × ℚ × ℚ) := none
  rows : Nat := 0
  cols : Nat := 0
deriving DecidableEq, Repr

/-- One pdfplumber page, at the library boundary. -/
structure PdfPage where
  width : ℚ := 0
  height : ℚ := 0
  text : String := ""
  tables : List PdfTable := []
  images : List PdfImage := []
  lines : Nat := 0
  rects : Nat := 0
  curves : Nat := 0
deriving DecidableEq, Repr

/-- `DocParser._filter_table_images`: drop an image whose overlap ratio
with some table bbox exceeds 0.5 (no filtering when the page has no
table bboxes). -/
def filterTableImages (images : List PdfImage)
    (tableBboxes : List (Option (ℚ × ℚ × ℚ × ℚ))) : List PdfImage :=
  if tableBboxes = [] then images
  else
    images.filter (fun img =>
      !(tableBboxes.any (fun tb =>
        match tb with
        | some (a, b, c, d) =>
          decide ((1 : ℚ) / 2 <
            bboxOverlap ⟨img.x0, img.top, img.x1, img.bottom⟩ ⟨a, b, c, d⟩)
        | none => false)))

/-- The accumulator of the `_parse_pdf` page loop. -/
structure PdfAcc where
  textParts : List String := []
  totalImages : Nat := 0
  totalTables : Nat := 0
  totalRects : Nat := 0
  totalLines : Nat := 0
  totalCurves : Nat := 0
  tablePages : List Nat := []
  imagePages : List Nat := []
  scannedPages : List Nat := []
  tablesDetail : List TableDetail := []
  pagesOut : List PageImage := []

/-- One iteration of the `_parse_pdf` page loop. -/
def parsePdfStep (extractImages : Bool) (pageIdx : Nat) (page : PdfPage)
    (acc : PdfAcc) : PdfAcc :=
  let tableBboxes := page.tables.map (fun t => t.bbox)
  let acc1 :=
    if page.tables ≠ [] then
      { acc with
          totalTables := acc.totalTables + page.tables.length,
          tablePages := insertIfAbsent acc.tablePages pageIdx,
          tablesDetail :=
            acc.tablesDetail ++
              page.tables.map (fun t =>
                { page := pageIdx, bbox := t.bbox, rows := t.rows, cols := t.cols }) }
    else acc
  let realImages := filterTableImages page.images tableBboxes
  let acc2 :=
    if realImages ≠ [] then
      let withImg :=
        { acc1 with
            totalImages := acc1.totalImages + realImages.length,
            imagePages := insertIfAbsent acc1.imagePages pageIdx }
      if tableBboxes = [] then
        let pageArea := page.width * page.height
        if realImages.any (fun img =>
            decide (0 < pageArea) &&
              decide ((1 : ℚ) / 2 < img.effWidth * img.effHeight / pageArea)) then
          { withImg with scannedPages := insertIfAbsent withImg.scannedPages pageIdx }
        else withImg
      else withImg
    else acc1
  { acc2 with
      textParts := acc.textParts ++ [page.text],
      totalLines := acc2.totalLines + page.lines,
      totalRects := acc2.totalRects + page.rects,
      totalCurves := acc2.totalCurves + page.curves,
      pagesOut := if extractImages then acc2.pagesOut ++ [pageIdx] else acc2.pagesOut }

/-- The `_parse_pdf` page loop. -/
def parsePdfLoop (extractImages : Bool) (pageIdx : Nat) (acc : PdfAcc) :
    List PdfPage → PdfAcc
  | [] => acc
  | p :: rest =>
    parsePdfLoop extractImages (pageIdx + 1) (parsePdfStep extractImages pageIdx p acc) rest

/-- `DocParser._parse_pdf` (the pdfplumber path): page loop, chart and
complex-table detection, scanned-table flag, metadata assembly. -/
def parsePdf (extractImages : Bool) (docId filePath : String)
    (pdfPages : List PdfPage) : DocContent :=
  let acc := parsePdfLoop extractImages 0 {} pdfPages
  let hasChart :=
    detectChart acc.totalLines acc.totalRects acc.totalCurves acc.totalTables
      pdfPages.length
  let hasImageTable := acc.scannedPages ≠ []
  let hasComplexTable := detectComplexTable acc.tablesDetail
  { doc_id := docId,
    file_type := .pdf,
    file_path := filePath,
    page_count := if acc.pagesOut = [] then pdfPages.length else acc.pagesOut.length,
    text := String.intercalate "\n" acc.textParts,
    pages := acc.pagesOut,
    metadata :=
      { has_image := some (decide (0 < acc.totalImages)),
        has_table := some (decide (0 < acc.totalTables)),
        has_image_table := some (decide hasImageTable),
        has_complex_table := some hasComplexTable,
        has_formula := some false,
        has_chart := some hasChart,
        image_count := some acc.totalImages,
        table_count := some acc.totalTables,
        rect_count := some acc.totalRects,
        line_count := some acc.totalLines,
        curve_count := some acc.totalCurves,
        table_pages := some acc.tablePages,
        image_pages := some acc.imagePages,
        tables_detail := some acc.tablesDetail,
        possible_scanned_table := some (decide hasImageTable && decide (acc.totalTables = 0)),
        possible_scanned_table_pages := some acc.scannedPages } }

/-- Python's `str.lower()`, modelled per character. -/
def lowerStr (s : String) : String := ⟨s.data.map Char.toLower⟩

/-- `DocParser._detect_file_type`: `EXT_TO_FILE_TYPE.get(ext, TXT)` on
the lower-cased path suffix. -/
def detectFileType (suffix : String) : FileType :=
  match extToFileType.find? (fun p => p.1 = lowerStr suffix) with
  | some p => p.2
  | none => .txt

/-- The branches of the `process` format dispatch chain. -/
inductive ParseBranch where
  | viaPdf | viaDocx | viaExcel | viaPptx | viaHtml | viaText | unsupported
deriving DecidableEq, Repr

/-- The `if file_type == ... elif ...` dispatch of `DocParser.process`;
the final `else` branch returns the unsupported-type failure. -/
def dispatchBranch (ft : FileType) : ParseBranch :=
  if ft = .pdf then .viaPdf
  else if ft = .doc then .viaDocx
  else if ft = .excel then .viaExcel
  else if ft = .ppt then .viaPptx
  else if ft = .html then .viaHtml
  else if ft = .txt ∨ ft = .md then .viaText
  else .unsupported

/-- One child of a Word document body, at the python-docx boundary: a
paragraph (its text, its count of `<w:br type="page"/>` markers, and
whether `<w:pageBreakBefore/>` is present) or a table (rows, cols). -/
inductive DocxItem where
  | para (text : String) (brCount : Nat) (breakBefore : Bool)
  | tbl (rows cols : Nat)

/-- The page-break counting loop over `doc.paragraphs`. -/
def docxPageBreaks : List DocxItem → Nat
  | [] => 0
  | .para _ br bb :: rest =>
    br + (if bb then 1 else 0) + docxPageBreaks rest
  | .tbl _ _ :: rest => docxPageBreaks rest

/-- `total_paragraph_lines`: paragraphs with non-empty stripped text. -/
def docxParagraphLines : List DocxItem → Nat
  | [] => 0
  | .para t _ _ :: rest =>
    (if strippedNonempty t then 1 else 0) + docxParagraphLines rest
  | .tbl _ _ :: rest => docxParagraphLines rest

/-- The accumulator of the `_parse_docx` body walk. -/
structure DocxAcc where
  currentPage : Nat := 0
  tablePages : List Nat := []
  tablesDetail : List TableDetail := []
  totalTableRows : Nat := 0

/-- The `_parse_docx` body walk: track the running page index from break
markers and collect per-table details and the table-row total. -/
def docxWalk (acc : DocxAcc) : List DocxItem → DocxAcc
  | [] => acc
  | .para _ br bb :: rest =>
    docxWalk
      { acc with
          currentPage :=
            acc.currentPage + (if 0 < br then 1 else 0) + (if bb then 1 else 0) }
      rest
  | .tbl r c :: rest =>
    docxWalk
      { acc with
          tablePages := insertIfAbsent acc.tablePages acc.currentPage,
          tablesDetail :=
            acc.tablesDetail ++ [{ page := acc.currentPage, rows := r, cols := c }],
          totalTableRows := acc.totalTableRows + r }
      rest

/-- The page-count estimation of `_parse_docx`:
`max(page_breaks + 1, max(1, content_lines // 50 + 1))`. -/
def docxPageCount (body : List DocxItem) : Nat :=
  let pageBreaks := docxPageBreaks body
  let totalTableRows := (docxWalk {} body).totalTableRows
  let totalContentLines := docxParagraphLines body + totalTableRows
  let estimatedPages := max 1 (totalContentLines / 50 + 1)
  max (pageBreaks + 1) estimatedPages

/-- The page-count formula exactly as the spec's words describe it
(claim-side definition, for comparison with `docxPageCount`): the
maximum of the page-break pages and of (paragraph lines + table rows)
divided by 50 lines per page with a floor of 1. -/
def docxPageCountSpec (pageBreaks paragraphLines tableRows : Nat) : Nat :=
  max (pageBreaks + 1) (max 1 ((paragraphLines + tableRows) / 50))

/-! ## The wired four-stage pipeline (`src/service.py`) -/

/-- The heterogeneous value threaded through the annotation pipeline:
each stage consumes one variant and produces the next. -/
inductive PipeData where
  | path (p : String)
  | content (dc : DocContent)
  | withElems (dc : DocContent) (el : ElementList)
  | withFeatures (dc : DocContent) (el : ElementList) (features : FeatureSet)
  | annotated (ann : DocumentAnnotation)

/-- The `DocParser` stage, over an arbitrary parsing behaviour `pf`
(filesystem access and format libraries are at the boundary).
Unpacking a wrong-variant input raises. -/
def parserStage (pf : String → StageOut DocContent) : Stage PipeData :=
  { name := "DocParser",
    run := fun d =>
      match d with
      | .path p =>
        match pf p with
        | .ok dc => .ok (.content dc)
        | .fail errs => .fail errs
        | .exn msg => .exn msg
      | _ => .exn "unexpected input" }

/-- The `ElementDetector` stage. -/
def detectorStage (self : ElementDetector) : Stage PipeData :=
  { name := "ElementDetector",
    run := fun d =>
      match d with
      | .content dc =>
        let r := self.process dc
        match r.success, r.data with
        | true, some (dc2, el) => .ok (.withElems dc2 el)
        | _, _ => .fail r.errors
      | _ => .exn "unexpected input" }

/-- The `FeatureExtractor` stage. -/
def featureStage (self : FeatureExtractor) : Stage PipeData :=
  { name := "FeatureExtractor",
    run := fun d =>
      match d with
      | .withElems dc el =>
        let r := self.process (dc, el)
        match r.success, r.data with
        | true, some (dc2, el2, fs) => .ok (.withFeatures dc2 el2 fs)
        | _, _ => .fail r.errors
      | _ => .exn "unexpected input" }

/-- The `LayoutClassifier` stage. -/
def layoutStage (self : LayoutClassifier) : Stage PipeData :=
  { name := "LayoutClassifier",
    run := fun d =>
      match d with
      | .withFeatures dc el fs =>
        let r := self.process (dc, el, fs)
        match r.success, r.data with
        | true, some ann => .ok (.annotated ann)
        | _, _ => .fail r.errors
      | _ => .exn "unexpected input" }

/-- The four-stage pipeline wired by `AnnotationService._build_pipeline`. -/
def servicePipeline (pf : String → StageOut DocContent) (det : ElementDetector)
    (fe : FeatureExtractor) (lc : LayoutClassifier) : List (Stage PipeData) :=
  [parserStage pf, detectorStage det, featureStage fe, layoutStage lc]

/-- End-to-end annotation of a parsed PDF with no OCR and no LLM
configured: the default-configuration composition of the four stages,
starting from the pdfplumber page list. -/
def annotatePdf (pdfPages : List PdfPage) : Option DocumentAnnotation :=
  let dc := parsePdf true "doc" "doc.pdf" pdfPages
  match ElementDetector.process {} dc with
  | { success := true, data := some (dc2, el), errors := _ } =>
    match FeatureExtractor.process {} (dc2, el) with
    | { success := true, data := some (dc3, el2, fs), errors := _ } =>
      match LayoutClassifier.process {} (dc3, el2, fs) with
      | { success := true, data := some ann, errors := _ } => some ann
      | _ => none
    | _ => none
  | _ => none

/-- Claim-side total of table rows in a Word body (plain list sum, for
comparison with the `docxWalk` accumulation). -/
def docxTableRowsSum (body : List DocxItem) : Nat :=
  (body.map (fun it =>
    match it with
    | .tbl r _ => r
    | .para _ _ _ => 0)).sum

/-! ## Concrete instances used by witnesses and counterexamples -/

/-- A Word body of 100 plain one-line paragraphs. -/
def paraBody100 : List DocxItem :=
  List.replicate 100 (DocxItem.para "x" 0 false)

/-- A one-page PDF whose single page holds no structured table and one
image covering 81% of the page area. -/
def scannedPdf : List PdfPage :=
  [{ width := 100, height := 100,
     images := [{ x0 := 0, x1 := 90, top := 0, bottom := 90,
                  y0 := 0, y1 := 90, width := 90, height := 90 }] }]

/-- A five-page PDF whose pages 2–4 (0-based 1..3) each hold one 60-row
table, with zero curves/rects/lines and zero images. -/
def crossPagePdf : List PdfPage :=
  [{ width := 100, height := 100 },
   { width := 100, height := 100,
     tables := [{ bbox := some (10, 10, 90, 90), rows := 60, cols := 3 }] },
   { width := 100, height := 100,
     tables := [{ bbox := some (10, 10, 90, 90), rows := 60, cols := 3 }] },
   { width := 100, height := 100,
     tables := [{ bbox := some (10, 10, 90, 90), rows := 60, cols := 3 }] },
   { width := 100, height := 100 }]

/-- A five-page document content with one table element on page 0. -/
def dcFivePages : DocContent :=
  { doc_id := "d", file_type := .pdf, file_path := "d.pdf", page_count := 5 }

/-- An element list holding a single 10-row table element on page 0. -/
def elOneSmallTable : ElementList :=
  { tables := [{ bbox := [0, 0, 0, 0], page := 0, confidence := 1,
                 extra := { rows := 10 } }] }

/-- A plain-text document content (non-PDF). -/
def dcTxt : DocContent :=
  { doc_id := "t", file_type := .txt, file_path := "t.xyz", page_count := 1 }

/-- A parser behaviour that always reports failure. -/
def pfFail : String → StageOut DocContent := fun _ => .fail ["parse error"]

/-- The document content `parsePdf` produces for `scannedPdf`. -/
def dcScanned : DocContent :=
  { doc_id := "doc", file_type := .pdf, file_path := "doc.pdf",
    page_count := 1, text := "", pages := [0],
    metadata :=
      { has_image := some true, has_table := some false,
        has_image_table := some true, has_complex_table := some false,
        has_formula := some false, has_chart := some false,
        image_count := some 1, table_count := some 0,
        rect_count := some 0, line_count := some 0, curve_count := some 0,
        table_pages := some [], image_pages := some [0],
        tables_detail := some [],
        possible_scanned_table := some true,
        possible_scanned_table_pages := some [0] } }

/-- The document content `parsePdf` produces for `crossPagePdf`. -/
def dcCrossPage : DocContent :=
  { doc_id := "doc", file_type := .pdf, file_path := "doc.pdf",
    page_count := 5, text := "\n\n\n\n", pages := [0, 1, 2, 3, 4],
    metadata :=
      { has_image := some false, has_table := some true,
        has_image_table := some false, has_complex_table := some false,
        has_formula := some false, has_chart := some false,
        image_count := some 0, table_count := some 3,
        rect_count := some 0, line_count := some 0, curve_count := some 0,
        table_pages := some [1, 2, 3], image_pages := some [],
        tables_detail := some
          [{ page := 1, bbox := some (10, 10, 90, 90), rows := 60, cols := 3 },
           { page := 2, bbox := some (10, 10, 90, 90), rows := 60, cols := 3 },
           { page := 3, bbox := some (10, 10, 90, 90), rows := 60, cols := 3 }],
        possible_scanned_table := some false,
        possible_scanned_table_pages := some [] } }

/-! ## Theorems -/

/-- Invariant of the execute loop: the traced run agrees with the plain
run and both are characterized by `firstFailure`/`threadAll`. -/
theorem executeTracedFrom_spec {α : Type} (steps : List (Stage α)) :
    ∀ (i : Nat) (a : α),
      (executeTracedFrom i a steps).1 = executeFrom i a steps ∧
      (match firstFailure steps a with
       | some (k, n, d) =>
         (executeFrom i a steps).success = false ∧
         (executeFrom i a steps).data = d ∧
         (executeFrom i a steps).metadata = .failedAt (i + k) n ∧
         (executeTracedFrom i a steps).2 = List.range' i (k + 1)
       | none =>
         (executeFrom i a steps).success = true ∧
         (executeFrom i a steps).data = threadAll steps a ∧
         (executeTracedFrom i a steps).2 = List.range' i steps.length) := by
  induction steps with
  | nil =>
    intro i a
    simp [executeTracedFrom, executeFrom, firstFailure, threadAll]
  | cons s rest ih =>
    intro i a
    cases h : s.run a with
    | ok b =>
      have hrest := ih (i + 1) b
      constructor
      · simp only [executeTracedFrom, executeFrom, h]
        exact hrest.1
      · have h2 := hrest.2
        cases hf : firstFailure rest b with
        | none =>
          simp only [firstFailure, h, hf, Option.map_none] at h2 ⊢
          simp only [executeTracedFrom, executeFrom, threadAll, h]
          refine ⟨h2.1, h2.2.1, ?_⟩
          rw [List.length_cons, List.range'_succ]
          simp [h2.2.2]
        | some x =>
          obtain ⟨k, n, d⟩ := x
          simp only [firstFailure, h, hf, Option.map_some] at h2 ⊢
          simp only [executeTracedFrom, executeFrom, h]
          refine ⟨h2.1, h2.2.1, ?_, ?_⟩
          · rw [h2.2.2.1]
            congr 1
            omega
          · rw [List.range'_succ]
            simp only [h2.2.2.2]
    | fail errs =>
      constructor
      · simp [executeTracedFrom, executeFrom, h]
      · simp [firstFailure, executeTracedFrom, executeFrom, h, List.range'_succ]
    | exn msg =>
      constructor
      · simp [executeTracedFrom, executeFrom, h]
      · simp [firstFailure, executeTracedFrom, executeFrom, h, List.range'_succ]

/-- C5: `Pipeline.execute` runs the stages strictly in order, threading
each stage's output into the next; at the first stage that returns a
failure result or raises, it stops with `success = false`, `data` equal
to the data produced up to that point, and metadata recording the
failing stage's index and class name; the invocation trace is exactly
the indices `0..i` in order (so no later stage is run and no stage is
retried), and when no stage fails every stage runs exactly once and the
final data is the fully threaded value. -/
theorem pipeline_execute_short_circuit {α : Type} (steps : List (Stage α)) (a : α) :
    (Pipeline.executeTraced steps a).1 = Pipeline.execute steps a ∧
    (match firstFailure steps a with
     | some (i, n, d) =>
       (Pipeline.execute steps a).success = false ∧
       (Pipeline.execute steps a).data = d ∧
       (Pipeline.execute steps a).metadata = .failedAt i n ∧
       (Pipeline.executeTraced steps a).2 = List.range (i + 1)
     | none =>
       (Pipeline.execute steps a).success = true ∧
       (Pipeline.execute steps a).data = threadAll steps a ∧
       (Pipeline.executeTraced steps a).2 = List.range steps.length) := by
  have h := executeTracedFrom_spec steps 0 a
  unfold Pipeline.executeTraced Pipeline.execute
  refine ⟨h.1, ?_⟩
  have h2 := h.2
  cases hf : firstFailure steps a with
  | none =>
    simp only [hf] at h2
    exact ⟨h2.1, h2.2.1, by rw [h2.2.2, List.range_eq_range']⟩
  | some x =>
    obtain ⟨k, n, d⟩ := x
    simp only [hf] at h2
    refine ⟨h2.1, h2.2.1, ?_, ?_⟩
    · rw [h2.2.2.1]; congr 1; omega
    · rw [h2.2.2.2, List.range_eq_range']

/-- Cast arithmetic for the chart rule's excess-rectangle count. -/
theorem extraRects_cast (r t : Nat) :
    (((r : Int) - (t : Int) * 10 : Int) : ℚ) = (r : ℚ) - 10 * (t : ℚ) := by
  push_cast
  ring

/-- C6: the chart detector returns true iff one of the three ordered
rules fires — (a) more than 5 curves; else (b) excess rectangles
(rects − 10·tables) per page exceed 5; else (c) no tables and more than
10 rectangles — and in particular more than 5 curves forces true while
zero tables with zero curves/rects/lines forces false. -/
theorem detectChart_rule_chain (l r c t p : Nat) :
    (detectChart l r c t p = true ↔
      (5 < c ∨
       (c ≤ 5 ∧ 0 < p ∧ (5 : ℚ) < ((r : ℚ) - 10 * (t : ℚ)) / (p : ℚ)) ∨
       (c ≤ 5 ∧ ¬(0 < p ∧ (5 : ℚ) < ((r : ℚ) - 10 * (t : ℚ)) / (p : ℚ)) ∧
        t = 0 ∧ 10 < r))) ∧
    (5 < c → detectChart l r c t p = true) ∧
    ((t = 0 ∧ r = 0 ∧ c = 0 ∧ l = 0) → detectChart l r c t p = false) := by
  have hcast := extraRects_cast r t
  refine ⟨?_, ?_, ?_⟩
  · simp only [detectChart, hcast]
    by_cases h1 : 5 < c
    · simp [h1]
    · by_cases h2 : 0 < p ∧ (5 : ℚ) < ((r : ℚ) - 10 * (t : ℚ)) / (p : ℚ)
      · simp [h1, h2, not_lt.mp h1]
      · by_cases h3 : t = 0 ∧ 10 < r
        · simp only [h1, h2, h3, not_lt.mp h1, if_false, if_true, iff_true,
            false_or, not_false_eq_true, and_true, true_and, if_neg h2]
          simp [h2, h1, h3.1, h3.2]
          exact fun _ => lt_or_le 5 _
        · simp [h1, h2, h3, not_lt.mp h1]
  · intro h
    simp [detectChart, h]
  · rintro ⟨ht, hr, hc, -⟩
    subst ht hr hc
    simp [detectChart]

/-- Witness for `detectChart_rule_chain` at concrete tallies. -/
theorem detectChart_rule_chain_witness :
    detectChart 0 0 6 3 2 = true ∧ detectChart 0 0 0 0 7 = false :=
  ⟨(detectChart_rule_chain 0 0 6 3 2).2.1 (by norm_num),
   (detectChart_rule_chain 0 0 0 0 7).2.2 ⟨rfl, rfl, rfl, rfl⟩⟩

/-- C8: the overlap-ratio function gives exactly 1 on identical boxes of
positive area, 0 on disjoint boxes, and is never negative. -/
theorem bboxOverlap_claim :
    (∀ b : BBox, b.x0 < b.x1 → b.y0 < b.y1 → bboxOverlap b b = 1) ∧
    (∀ b1 b2 : BBox,
      (min b1.x1 b2.x1 ≤ max b1.x0 b2.x0 ∨ min b1.y1 b2.y1 ≤ max b1.y0 b2.y0) →
      bboxOverlap b1 b2 = 0) ∧
    (∀ b1 b2 : BBox, 0 ≤ bboxOverlap b1 b2) := by
  refine ⟨?_, ?_, ?_⟩
  · intro b hx hy
    have harea : 0 < (b.x1 - b.x0) * (b.y1 - b.y0) :=
      mul_pos (by linarith) (by linarith)
    simp only [bboxOverlap, max_self, min_self]
    rw [if_neg (by push_neg; exact ⟨hx, hy⟩), if_neg (not_le.mpr harea)]
    exact div_self (ne_of_gt harea)
  · intro b1 b2 h
    simp only [bboxOverlap]
    rw [if_pos]
    rcases h with h | h
    · exact Or.inl h
    · exact Or.inr h
  · intro b1 b2
    simp only [bboxOverlap]
    split_ifs with h1 h2
    · exact le_refl 0
    · exact le_refl 0
    · push_neg at h1 h2
      obtain ⟨hx, hy⟩ := h1
      exact le_of_lt
        (div_pos (mul_pos (by linarith) (by linarith)) (by linarith))

/-- Witness for `bboxOverlap_claim` at concrete boxes. -/
theorem bboxOverlap_claim_witness :
    bboxOverlap ⟨0, 0, 2, 2⟩ ⟨0, 0, 2, 2⟩ = 1 ∧
    bboxOverlap ⟨0, 0, 1, 1⟩ ⟨5, 5, 6, 6⟩ = 0 ∧
    0 ≤ bboxOverlap ⟨0, 0, 1, 1⟩ ⟨0, 0, 3, 3⟩ :=
  ⟨bboxOverlap_claim.1 ⟨0, 0, 2, 2⟩ (by norm_num) (by norm_num),
   bboxOverlap_claim.2.1 ⟨0, 0, 1, 1⟩ ⟨5, 5, 6, 6⟩ (by norm_num),
   bboxOverlap_claim.2.2 ⟨0, 0, 1, 1⟩ ⟨0, 0, 3, 3⟩⟩

/-- C4 counterexample: for the unrecognized extension `.xyz` the file
type defaults to TXT and the dispatch takes the plain-text parse branch,
not the unsupported-format failure branch. -/
theorem unsupported_ext_counterexample :
    detectFileType ".xyz" = FileType.txt ∧
    dispatchBranch (detectFileType ".xyz") = ParseBranch.viaText ∧
    dispatchBranch (detectFileType ".xyz") ≠ ParseBranch.unsupported := by
  refine ⟨by decide, by decide, by decide⟩

/-- C4 (amended): extension detection never reaches the
unsupported-format failure branch; an unrecognized extension is mapped
to the TXT file type and parsed as plain text. -/
theorem detectFileType_never_unsupported (ext : String) :
    dispatchBranch (detectFileType ext) ≠ ParseBranch.unsupported ∧
    (extToFileType.find? (fun p => p.1 = lowerStr ext) = none →
      detectFileType ext = FileType.txt ∧
      dispatchBranch (detectFileType ext) = ParseBranch.viaText) := by
  constructor
  · have h : ∀ ft : FileType, dispatchBranch ft ≠ ParseBranch.unsupported := by
      intro ft
      cases ft <;> decide
    exact h _
  · intro h
    simp only [detectFileType, h]
    exact ⟨trivial, by decide⟩

/-- Witness for `detectFileType_never_unsupported` at `.xyz`. -/
theorem detectFileType_never_unsupported_witness :
    detectFileType ".xyz" = FileType.txt ∧
    dispatchBranch (detectFileType ".xyz") = ParseBranch.viaText :=
  (detectFileType_never_unsupported ".xyz").2 (by decide)

/-- The `docxWalk` table-row accumulation equals the plain sum. -/
theorem docxWalk_totalTableRows (body : List DocxItem) :
    ∀ acc : DocxAcc,
      (docxWalk acc body).totalTableRows = acc.totalTableRows + docxTableRowsSum body := by
  induction body with
  | nil =>
    intro acc
    simp [docxWalk, docxTableRowsSum]
  | cons it rest ih =>
    intro acc
    cases it with
    | para t br bb =>
      simp only [docxWalk, docxTableRowsSum, List.map_cons, List.sum_cons] at ih ⊢
      rw [ih]
      simp
    | tbl r c =>
      simp only [docxWalk, docxTableRowsSum, List.map_cons, List.sum_cons] at ih ⊢
      rw [ih]
      simp [docxTableRowsSum]
      omega

set_option maxRecDepth 4000 in
/-- C7 counterexample: on a body of 100 one-line paragraphs and no
page breaks the code estimates 3 pages (`100 // 50 + 1`), while the
claim's formula — content lines divided by 50 with a floor of 1 — gives
2 pages. -/
theorem docx_page_count_counterexample :
    docxPageCount paraBody100 = 3 ∧
    docxPageCountSpec (docxPageBreaks paraBody100) (docxParagraphLines paraBody100)
      ((docxWalk {} paraBody100).totalTableRows) = 2 := by
  constructor
  · decide
  · decide

/-- C7 (amended): the Word page estimate equals the maximum of
(page-break markers + 1) and the content-density estimate computed as
(non-empty paragraph lines + table rows) divided by 50 **plus one**
(clamped to at least 1), and is always at least 1. -/
theorem docxPageCount_formula (body : List DocxItem) :
    docxPageCount body =
      max (docxPageBreaks body + 1)
        (max 1 ((docxParagraphLines body + docxTableRowsSum body) / 50 + 1)) ∧
    1 ≤ docxPageCount body := by
  have hf : docxPageCount body =
      max (docxPageBreaks body + 1)
        (max 1 ((docxParagraphLines body + docxTableRowsSum body) / 50 + 1)) := by
    unfold docxPageCount
    rw [docxWalk_totalTableRows body {}]
    simp
  exact ⟨hf, by rw [hf]; omega⟩

/-- C1 counterexample: a five-page document with a single 10-row table
element on page 0 satisfies none of the four dominance conditions, yet
the rule stage sets `table_dominant` to an explicit false instead of
leaving it undetermined. -/
theorem table_dominant_counterexample :
    elOneSmallTable.tables ≠ [] ∧
    feTablePageRatio dcFivePages elOneSmallTable < (3 : ℚ) / 5 ∧
    feCoverageRatio dcFivePages elOneSmallTable < (3 : ℚ) / 5 ∧
    ¬((feTablePages elOneSmallTable).length = dcFivePages.page_count ∧
        0 < dcFivePages.page_count) ∧
    ¬(0 < dcFivePages.page_count ∧
        dcFivePages.page_count ≤ elOneSmallTable.tables.length) ∧
    (FeatureExtractor.extractTableFeatures {} dcFivePages elOneSmallTable
      {}).table_dominant = some false := by
  refine ⟨by decide, ?_, ?_, by decide, by decide, ?_⟩
  · norm_num [feTablePageRatio, feTablePages, setOfList, insertIfAbsent,
      dcFivePages, elOneSmallTable]
  · norm_num [feCoverageRatio, feEstimatedTablePages, feTotalTableRows,
      dcFivePages, elOneSmallTable]
  · norm_num [FeatureExtractor.extractTableFeatures, FeatureExtractor.isDominant,
      feTablePageRatio, feCoverageRatio, feEstimatedTablePages, feTotalTableRows,
      feTablePages, feMaxTableRows, feMaxSingleTablePages, setOfList,
      insertIfAbsent, sortNat, insertSorted, hasAdjacentPair, maxConsecutive,
      maxConsecutiveFrom, dcFivePages, elOneSmallTable]

/-- C1 (amended): whenever the element list holds at least one table and
none of the four dominance conditions is met (at the configured ratio),
the table-feature rules set `table_dominant` to the explicit value
false — it is not left undetermined. -/
theorem table_dominant_explicit_false (fe : FeatureExtractor) (dc : DocContent)
    (el : ElementList) (fs : FeatureSet)
    (hne : el.tables ≠ [])
    (h1 : feTablePageRatio dc el < fe.table_dominant_ratio)
    (h2 : feCoverageRatio dc el < fe.table_dominant_ratio)
    (h3 : ¬((feTablePages el).length = dc.page_count ∧ 0 < dc.page_count))
    (h4 : ¬(0 < dc.page_count ∧ dc.page_count ≤ el.tables.length)) :
    (fe.extractTableFeatures dc el fs).table_dominant = some false ∧
    (fe.extractTableFeatures dc el fs).table_dominant ≠ none := by
  have hd : fe.isDominant dc el = false := by
    unfold FeatureExtractor.isDominant
    rw [if_neg (not_le.mpr h1), if_neg (not_le.mpr h2), if_neg h3, if_neg h4]
  unfold FeatureExtractor.extractTableFeatures
  rw [if_neg hne]
  simp [hd]

/-- Witness for `table_dominant_explicit_false` at the concrete
five-page document. -/
theorem table_dominant_explicit_false_witness :
    (FeatureExtractor.extractTableFeatures {} dcFivePages elOneSmallTable
      {}).table_dominant = some false ∧
    (FeatureExtractor.extractTableFeatures {} dcFivePages elOneSmallTable
      {}).table_dominant ≠ none :=
  table_dominant_explicit_false {} dcFivePages elOneSmallTable {}
    (by decide)
    (by norm_num [feTablePageRatio, feTablePages, setOfList, insertIfAbsent,
      dcFivePages, elOneSmallTable])
    (by norm_num [feCoverageRatio, feEstimatedTablePages, feTotalTableRows,
      dcFivePages, elOneSmallTable])
    (by decide) (by decide)

/-- Evaluation of the PDF parse on the scanned-image document. -/
theorem parsePdf_scanned : parsePdf true "doc" "doc.pdf" scannedPdf = dcScanned := by
  norm_num [parsePdf, parsePdfLoop, parsePdfStep, scannedPdf, filterTableImages,
    PdfImage.effWidth, PdfImage.effHeight, insertIfAbsent, detectChart,
    detectComplexTable, dcScanned]
  rfl

/-- C2: on a one-page PDF whose page has no structured table and one
image covering 81% of the page, the parser's metadata does flag
`has_image_table` (and no table), but the pipeline's final annotation
carries `has_image_table = false` — the layout classifier never copies
the flag into the `DocProfile`, whose field keeps its default. -/
theorem scanned_image_table_lost :
    (parsePdf true "doc" "doc.pdf" scannedPdf).metadata.has_image_table = some true ∧
    (parsePdf true "doc" "doc.pdf" scannedPdf).metadata.has_table = some false ∧
    annotatePdf scannedPdf = some
      { doc_id := "doc", file_type := .pdf, file_path := "doc.pdf",
        doc_profile := some
          { layout := .single, has_image := true, has_table := false,
            has_image_table := false, has_complex_table := false,
            has_formula := false, has_chart := false, image_text_mixed := false,
            reading_order_sensitive := none, table_profile := none,
            chart_profile := none } } := by
  refine ⟨?_, ?_, ?_⟩
  · rw [parsePdf_scanned]
    rfl
  · rw [parsePdf_scanned]
    rfl
  · unfold annotatePdf
    rw [parsePdf_scanned]
    decide

/-- Evaluation of the PDF parse on the five-page cross-page-table
document. -/
theorem parsePdf_crossPage :
    parsePdf true "doc" "doc.pdf" crossPagePdf = dcCrossPage := by
  norm_num [parsePdf, parsePdfLoop, parsePdfStep, crossPagePdf, filterTableImages,
    PdfImage.effWidth, PdfImage.effHeight, insertIfAbsent, detectChart,
    detectComplexTable, dcCrossPage]
  rfl

/-- C3: on the five-page PDF whose pages 2–4 each hold one 60-row table,
the pipeline's annotation has `has_table = true` but
`cross_page_table = false`, `long_table = false` and
`table_dominant = some false`: the element detector collapses the
parser's metadata to a single placeholder table on page 0 with no row
count, so the feature rules cannot see the adjacent table pages. -/
theorem cross_page_scenario_mismatch :
    (parsePdf true "doc" "doc.pdf" crossPagePdf).metadata.table_pages =
      some [1, 2, 3] ∧
    (parsePdf true "doc" "doc.pdf" crossPagePdf).metadata.tables_detail = some
      [{ page := 1, bbox := some (10, 10, 90, 90), rows := 60, cols := 3 },
       { page := 2, bbox := some (10, 10, 90, 90), rows := 60, cols := 3 },
       { page := 3, bbox := some (10, 10, 90, 90), rows := 60, cols := 3 }] ∧
    annotatePdf crossPagePdf = some
      { doc_id := "doc", file_type := .pdf, file_path := "doc.pdf",
        doc_profile := some
          { layout := .single, has_image := false, has_table := true,
            has_image_table := false, has_complex_table := false,
            has_formula := false, has_chart := false, image_text_mixed := false,
            reading_order_sensitive := none,
            table_profile := some
              { long_table := false, cross_page_table := false,
                table_dominant := some false },
            chart_profile := none } } := by
  refine ⟨?_, ?_, ?_⟩
  · rw [parsePdf_crossPage]
    rfl
  · rw [parsePdf_crossPage]
    rfl
  · unfold annotatePdf
    rw [parsePdf_crossPage]
    norm_num [ElementDetector.process, hasMetadataInfo,
      ElementDetector.processFromMetadata, metadataElement,
      FeatureExtractor.process, FeatureExtractor.extractTableFeatures,
      FeatureExtractor.isDominant, feTablePageRatio, feCoverageRatio,
      feEstimatedTablePages, feTotalTableRows, feTablePages, feMaxTableRows,
      feMaxSingleTablePages, setOfList, insertIfAbsent, sortNat, insertSorted,
      hasAdjacentPair, maxConsecutive, maxConsecutiveFrom,
      FeatureExtractor.extractChartFeatures, LayoutClassifier.process,
      LayoutClassifier.annotationOf, LayoutClassifier.buildProfile,
      LayoutClassifier.classifyByRules, stripChars, dcCrossPage]

/-- C9: in every annotation the layout classifier assembles, the nested
`table_profile` is present iff the table collection is non-empty and the
file type is PDF, likewise `chart_profile` for charts; every non-PDF
document gets `layout = single` with both nested profiles absent; and
the same presence conditions hold for the keys of the serialized
record. -/
theorem nested_profiles_invariant (lc : LayoutClassifier) (dc : DocContent)
    (el : ElementList) (features : FeatureSet) :
    ((lc.buildProfile dc el features).table_profile.isSome ↔
      (el.tables ≠ [] ∧ dc.file_type = .pdf)) ∧
    ((lc.buildProfile dc el features).chart_profile.isSome ↔
      (el.charts ≠ [] ∧ dc.file_type = .pdf)) ∧
    (dc.file_type ≠ .pdf →
      (lc.buildProfile dc el features).layout = .single ∧
      (lc.buildProfile dc el features).table_profile = none ∧
      (lc.buildProfile dc el features).chart_profile = none) ∧
    (("table_profile" ∈ ((lc.buildProfile dc el features).toDict.map Prod.fst)) ↔
      (el.tables ≠ [] ∧ dc.file_type = .pdf)) ∧
    (("chart_profile" ∈ ((lc.buildProfile dc el features).toDict.map Prod.fst)) ↔
      (el.charts ≠ [] ∧ dc.file_type = .pdf)) := by
  by_cases hpdf : dc.file_type = .pdf
  · by_cases ht : el.tables = [] <;> by_cases hc : el.charts = [] <;>
      cases hro : features.reading_order_sensitive <;>
      cases hdom : features.table_dominant <;>
      simp [LayoutClassifier.buildProfile, DocProfile.toDict, hpdf, ht, hc, hro,
        hdom, TableProfile.toDict, ChartProfile.toDict]
  · simp [LayoutClassifier.buildProfile, DocProfile.toDict, hpdf]

/-- Witness for `nested_profiles_invariant` at a concrete non-PDF
document. -/
theorem nested_profiles_invariant_witness :
    (LayoutClassifier.buildProfile {} dcTxt {} {}).layout = .single ∧
    (LayoutClassifier.buildProfile {} dcTxt {} {}).table_profile = none ∧
    (LayoutClassifier.buildProfile {} dcTxt {} {}).chart_profile = none :=
  (nested_profiles_invariant {} dcTxt {} {}).2.2.1 (by decide)

/-- The OCR page loop either fails or yields the same document with some
element list. -/
theorem ocrLoop_success_data (det : ElementDetector) (ocr : OCRModel)
    (dc : DocContent) :
    ∀ (pages : List PageImage) (idx : Nat) (acc : ElementList),
      (ElementDetector.ocrLoop det ocr dc idx acc pages).success = false ∨
      ∃ el,
        (ElementDetector.ocrLoop det ocr dc idx acc pages).data = some (dc, el) ∧
        (ElementDetector.ocrLoop det ocr dc idx acc pages).success = true := by
  intro pages
  induction pages with
  | nil =>
    intro idx acc
    right
    exact ⟨acc, rfl, rfl⟩
  | cons img rest ih =>
    intro idx acc
    simp only [ElementDetector.ocrLoop]
    cases ocr img with
    | some d => exact ih _ _
    | none =>
      left
      rfl

/-- The element detector either fails or yields a data pair. -/
theorem detector_process_cases (det : ElementDetector) (dc : DocContent) :
    (det.process dc).success = false ∨
    ∃ dc2 el, (det.process dc).data = some (dc2, el) ∧
      (det.process dc).success = true := by
  unfold ElementDetector.process
  split_ifs with h1 h2
  · right
    exact ⟨dc, ElementDetector.processFromMetadata dc, rfl, rfl⟩
  · unfold ElementDetector.processWithOcr
    cases hocr : det.ocr_model with
    | none =>
      right
      exact ⟨dc, {}, rfl, rfl⟩
    | some ocr =>
      rcases ocrLoop_success_data det ocr dc dc.pages 0 {} with h | ⟨el, hd, hs⟩
      · left
        exact h
      · right
        exact ⟨dc, el, hd, hs⟩
  · right
    exact ⟨dc, {}, rfl, rfl⟩

/-- C10: the feature extractor and the layout classifier always return a
success result on every well-formed input tuple (classifier failures are
absorbed), so in the wired four-stage pipeline any failure is recorded
at stage index 0 (the document parser) or 1 (the element detector). -/
theorem stages_never_fail :
    (∀ (fe : FeatureExtractor) (input : DocContent × ElementList),
      (fe.process input).success = true) ∧
    (∀ (lc : LayoutClassifier) (input : DocContent × ElementList × FeatureSet),
      (lc.process input).success = true) ∧
    (∀ (pf : String → StageOut DocContent) (det : ElementDetector)
       (fe : FeatureExtractor) (lc : LayoutClassifier) (input : PipeData),
      (Pipeline.execute (servicePipeline pf det fe lc) input).success = false →
      ∃ i n, (Pipeline.execute (servicePipeline pf det fe lc) input).metadata =
        PMeta.failedAt i n ∧ (i = 0 ∨ i = 1)) := by
  refine ⟨fun fe input => rfl, fun lc input => rfl, ?_⟩
  intro pf det fe lc input
  unfold servicePipeline Pipeline.execute
  cases input with
  | path p =>
    cases hp : pf p with
    | ok dc =>
      rcases detector_process_cases det dc with hdf | ⟨dc2, el, hdd, hds⟩
      · cases hdata : (det.process dc).data with
        | none =>
          intro _
          simp only [executeFrom, parserStage, detectorStage, hp, hdf, hdata]
          exact ⟨1, "ElementDetector", rfl, Or.inr rfl⟩
        | some pair =>
          intro _
          simp only [executeFrom, parserStage, detectorStage, hp, hdf, hdata]
          exact ⟨1, "ElementDetector", rfl, Or.inr rfl⟩
      · intro hfail
        exfalso
        simp only [executeFrom, parserStage, detectorStage, hp, hds, hdd,
          featureStage, FeatureExtractor.process, layoutStage,
          LayoutClassifier.process] at hfail
        exact Bool.noConfusion hfail
    | fail errs =>
      intro _
      simp only [executeFrom, parserStage, hp]
      exact ⟨0, "DocParser", rfl, Or.inl rfl⟩
    | exn msg =>
      intro _
      simp only [executeFrom, parserStage, hp]
      exact ⟨0, "DocParser", rfl, Or.inl rfl⟩
  | content dc =>
    intro _
    exact ⟨0, "DocParser", rfl, Or.inl rfl⟩
  | withElems dc el =>
    intro _
    exact ⟨0, "DocParser", rfl, Or.inl rfl⟩
  | withFeatures dc el fs =>
    intro _
    exact ⟨0, "DocParser", rfl, Or.inl rfl⟩
  | annotated ann =>
    intro _
    exact ⟨0, "DocParser", rfl, Or.inl rfl⟩

/-- Witness for `stages_never_fail` with an always-failing parser. -/
theorem stages_never_fail_witness :
    ∃ i n,
      (Pipeline.execute (servicePipeline pfFail {} {} {}) (.path "f")).metadata =
        PMeta.failedAt i n ∧ (i = 0 ∨ i = 1) :=
  stages_never_fail.2.2 pfFail {} {} {} (.path "f") rfl

end DocsAnnotation
